import Mathlib

/-! Verification of the network-scraper core (src/unnamed/part_000 and src/dist/scraper.js):
a shallow embedding of the URL classifiers, the resource policy, the traffic-collector
handlers, the DOM subtitle fallback and the two discovery orchestrators, together with
theorems settling the spec claims about them. -/

/-! URL classifier.  The source tests unanchored case-insensitive regexes against the
whole URL string: isM3U8 is /\.m3u8(\?|$)/i.test(url), isSubtitle is
/\.(vtt|srt)(\?|$)/i.test(url). -/

/-- Case-insensitive character comparison, as performed by a regex with the i flag. -/
def chEqCI (a b : Char) : Bool := a.toLower == b.toLower

/-- Case-insensitive list comparison: equal lengths and chEqCI pointwise. -/
def listEqCI : List Char → List Char → Bool
  | [], [] => true
  | a :: as, b :: bs => chEqCI a b && listEqCI as bs
  | _, _ => false

/-- Whether the regex fragment pat(\?|$) matches at the head of l, case-insensitively:
l starts with pat up to case, and the remainder is empty or begins with a question mark. -/
def sliceHere (pat l : List Char) : Bool :=
  listEqCI (l.take pat.length) pat &&
    (match l.drop pat.length with
     | [] => true
     | c :: _ => c == '?')

/-- Unanchored regex search: attempt the match at every suffix of the subject. -/
def scanFor (here : List Char → Bool) : List Char → Bool
  | [] => here []
  | c :: rest => here (c :: rest) || scanFor here rest

/-- One attempted match of \.m3u8(\?|$) (with the i flag) at the head of l. -/
def m3u8Here (l : List Char) : Bool := sliceHere ['.', 'm', '3', 'u', '8'] l

/-- One attempted match of \.(vtt|srt)(\?|$) (with the i flag) at the head of l. -/
def subtitleHere (l : List Char) : Bool :=
  sliceHere ['.', 'v', 't', 't'] l || sliceHere ['.', 's', 'r', 't'] l

/-- isM3U8 from the source: /\.m3u8(\?|$)/i tested against the whole URL string. -/
def isM3U8 (url : String) : Bool := scanFor m3u8Here url.data

/-- isSubtitle from the source: /\.(vtt|srt)(\?|$)/i tested against the whole URL string. -/
def isSubtitle (url : String) : Bool := scanFor subtitleHere url.data

/-- isHeavyResource from the source: membership in the four heavy categories. -/
def isHeavyResource (ty : String) : Bool :=
  ["image", "stylesheet", "font", "media"].contains ty

/-! Spec-side predicates for the refinement claims about the classifiers: the claims
describe the classifiers as tests on the URL path component once any query string is
ignored.  These definitions follow the claims' words, to be compared with the source
definitions above. -/

/-- The URL text up to (excluding) the first question mark: the claims' notion of the
URL with any query string ignored. -/
def pathBeforeQuery (u : String) : List Char := u.data.takeWhile (fun c => c != '?')

/-- Case-insensitive suffix test. -/
def endsWithCI (l pat : List Char) : Bool := listEqCI (l.drop (l.length - pat.length)) pat

/-- Spec reading of claim C2: the path component, ignoring any query string, ends
with .m3u8 case-insensitively. -/
def specManifestPathEnds (u : String) : Bool :=
  endsWithCI (pathBeforeQuery u) ['.', 'm', '3', 'u', '8']

/-- Spec reading of claim C8: the path component, ignoring any query string, ends
with .vtt or .srt case-insensitively. -/
def specSubtitlePathEnds (u : String) : Bool :=
  endsWithCI (pathBeforeQuery u) ['.', 'v', 't', 't'] ||
    endsWithCI (pathBeforeQuery u) ['.', 's', 'r', 't']

/-! Lemmas about the classifiers. -/

lemma scanFor_iff (here : List Char → Bool) (l : List Char) :
    scanFor here l = true ↔ ∃ n, here (l.drop n) = true := by
  induction l with
  | nil =>
    constructor
    · intro h; exact ⟨0, h⟩
    · rintro ⟨n, h⟩; simpa [scanFor] using h
  | cons c rest ih =>
    simp only [scanFor, Bool.or_eq_true, ih]
    constructor
    · rintro (h | ⟨n, h⟩)
      · exact ⟨0, h⟩
      · exact ⟨n + 1, h⟩
    · rintro ⟨n, h⟩
      cases n with
      | zero => exact Or.inl h
      | succ k => exact Or.inr ⟨k, h⟩

lemma listEqCI_length : ∀ {a b : List Char}, listEqCI a b = true → a.length = b.length
  | [], [], _ => rfl
  | [], _ :: _, h => by simp [listEqCI] at h
  | _ :: _, [], h => by simp [listEqCI] at h
  | _ :: xs, _ :: ys, h => by
    simp only [listEqCI, Bool.and_eq_true] at h
    simp [listEqCI_length h.2]

lemma dropWhileQ_head (l : List Char) :
    l.dropWhile (fun c => c != '?') = [] ∨
      ∃ t, l.dropWhile (fun c => c != '?') = '?' :: t := by
  induction l with
  | nil => exact Or.inl rfl
  | cons c rest ih =>
    by_cases hc : c = '?'
    · subst hc
      exact Or.inr ⟨rest, by rw [List.dropWhile_cons_of_neg (by simp)]⟩
    · rw [List.dropWhile_cons_of_pos (by simp [hc])]
      exact ih

lemma endsWithCI_sliceHere (p r pat : List Char)
    (hr : r = [] ∨ ∃ t, r = '?' :: t)
    (h : endsWithCI p pat = true) :
    ∃ n, sliceHere pat ((p ++ r).drop n) = true := by
  unfold endsWithCI at h
  refine ⟨p.length - pat.length, ?_⟩
  rw [List.drop_append_of_le_length (Nat.sub_le _ _)]
  generalize hg : p.drop (p.length - pat.length) = s at h ⊢
  have hlen : s.length = pat.length := listEqCI_length h
  unfold sliceHere
  rw [← hlen, List.take_left, List.drop_left, h]
  rcases hr with hr | ⟨t, hr⟩ <;> subst hr <;> simp

lemma specManifest_implies_isM3U8 (u : String) (h : specManifestPathEnds u = true) :
    isM3U8 u = true := by
  unfold specManifestPathEnds at h
  have hsplit : pathBeforeQuery u ++ u.data.dropWhile (fun c => c != '?') = u.data :=
    List.takeWhile_append_dropWhile _ _
  obtain ⟨n, hn⟩ := endsWithCI_sliceHere (pathBeforeQuery u)
    (u.data.dropWhile (fun c => c != '?')) ['.', 'm', '3', 'u', '8'] (dropWhileQ_head u.data) h
  rw [hsplit] at hn
  exact (scanFor_iff m3u8Here u.data).2 ⟨n, hn⟩

lemma specSubtitle_implies_isSubtitle (u : String) (h : specSubtitlePathEnds u = true) :
    isSubtitle u = true := by
  unfold specSubtitlePathEnds at h
  rw [Bool.or_eq_true] at h
  have hsplit : pathBeforeQuery u ++ u.data.dropWhile (fun c => c != '?') = u.data :=
    List.takeWhile_append_dropWhile _ _
  refine (scanFor_iff subtitleHere u.data).2 ?_
  rcases h with h | h
  · obtain ⟨n, hn⟩ := endsWithCI_sliceHere (pathBeforeQuery u)
      (u.data.dropWhile (fun c => c != '?')) ['.', 'v', 't', 't'] (dropWhileQ_head u.data) h
    rw [hsplit] at hn
    exact ⟨n, by simp [subtitleHere, hn]⟩
  · obtain ⟨n, hn⟩ := endsWithCI_sliceHere (pathBeforeQuery u)
      (u.data.dropWhile (fun c => c != '?')) ['.', 's', 'r', 't'] (dropWhileQ_head u.data) h
    rw [hsplit] at hn
    exact ⟨n, by simp [subtitleHere, hn]⟩

/-! Traffic collector.  The two collected sets are JavaScript Sets of strings: ordered
by first insertion, deduplicated by exact string equality.  They are modelled as
duplicate-free lists with setAdd as Set.prototype.add. -/

/-- The state owned by one scrape call: the manifest URL set and the subtitle URL set. -/
structure NetState where
  m3u8 : List String
  subs : List String

/-- Set.prototype.add on the insertion-ordered list model: append if not yet present. -/
def setAdd (s : List String) (u : String) : List String :=
  if u ∈ s then s else s ++ [u]

/-- The recording performed on a single URL by the request handler (and twice, for the
response URL and the request URL, by the response handler):
if (isM3U8(url)) m3u8.add(url); if (isSubtitle(url)) subs.add(url). -/
def recordUrl (st : NetState) (u : String) : NetState :=
  NetState.mk
    (if isM3U8 u then setAdd st.m3u8 u else st.m3u8)
    (if isSubtitle u then setAdd st.subs u else st.subs)

/-- The block/allow decision returned by the request handler after recording. -/
inductive ReqDecision where
  | abortReq
  | continueReq
deriving DecidableEq

/-- The request handler of attachNetworkCollectors: record the URL into the matching
set(s) first, then abort the request iff its resource type is heavy, else continue it.
(Failures of the abort/continue calls themselves are swallowed by .catch in the source
and do not affect the recorded state.) -/
def onRequest (st : NetState) (url ty : String) : NetState × ReqDecision :=
  (recordUrl st url,
    if isHeavyResource ty then ReqDecision.abortReq else ReqDecision.continueReq)

/-- One network event delivered to the collectors.  A response event carries the
response URL and the originating request URL (they can differ after redirects);
inspectFails models the try/catch in the response handler: when inspection throws
(detached frame, navigated-away request) the handler changes nothing. -/
inductive NetEvent where
  | request (url ty : String)
  | response (resUrl reqUrl : String) (inspectFails : Bool)

/-- The state transition of one collector event. -/
def applyEvent (st : NetState) : NetEvent → NetState
  | NetEvent.request url ty => (onRequest st url ty).1
  | NetEvent.response resUrl reqUrl inspectFails =>
      if inspectFails then st else recordUrl (recordUrl st resUrl) reqUrl

/-- Folding a list of collector events over a state. -/
def applyEventsList (st : NetState) (l : List NetEvent) : NetState :=
  l.foldl applyEvent st

/-- The collector state produced by an event log, starting from the empty sets. -/
def applyEvents (l : List NetEvent) : NetState :=
  applyEventsList (NetState.mk [] []) l

/-! DOM subtitle fallback.  The injected page script of scrapeProviderWithSubtitles
scans the document for track elements with kind="subtitles" and a src attribute, and
for elements with a data-track or data-subtitle attribute. -/

/-- A track element: its kind attribute, whether it has a src attribute (the CSS
selector requires [src]), and the value of its resolved src property. -/
structure TrackEl where
  kind : String
  hasSrcAttr : Bool
  src : String

/-- An element carrying data-track / data-subtitle attributes (none = attribute absent). -/
structure DataEl where
  dataTrack : Option String
  dataSubtitle : Option String

/-- One frame's rendered document, as far as the fallback script reads it. -/
structure FrameDoc where
  tracks : List TrackEl
  dataEls : List DataEl

/-- A page's frame tree: the main frame's document and the nested frames' documents. -/
structure PageDom where
  mainFrame : FrameDoc
  childFrames : List FrameDoc

/-- JavaScript a || b || "" over getAttribute results, where null and the empty
string are falsy. -/
def jsOrEmpty (a b : Option String) : String :=
  match a with
  | some s => if s != "" then s else
      (match b with
       | some t => if t != "" then t else ""
       | none => "")
  | none =>
      match b with
      | some t => if t != "" then t else ""
      | none => ""

/-- The track-element pass of the fallback script:
querySelectorAll("track[kind='subtitles'][src]") then if (u) urls.add(u). -/
def collectTracks (acc : List String) (ts : List TrackEl) : List String :=
  ts.foldl (fun a t =>
    if t.kind == "subtitles" && t.hasSrcAttr && t.src != "" then setAdd a t.src else a) acc

/-- The data-attribute pass of the fallback script:
querySelectorAll("[data-track],[data-subtitle]") then trim and if (u) urls.add(u). -/
def collectDataEls (acc : List String) (es : List DataEl) : List String :=
  es.foldl (fun a e =>
    if e.dataTrack.isSome || e.dataSubtitle.isSome then
      (if (jsOrEmpty e.dataTrack e.dataSubtitle).trim != "" then
        setAdd a ((jsOrEmpty e.dataTrack e.dataSubtitle).trim) else a)
    else a) acc

/-- The DOM-fallback collection over one document (the injected script builds a Set
and returns Array.from of it). -/
def collectDoc (d : FrameDoc) : List String :=
  collectDataEls (collectTracks [] d.tracks) d.dataEls

/-- A subtitle record; the source populates only url ({ url: u }). -/
structure Subtitle where
  url : String
  label : Option String
  lang : Option String

/-! Discovery orchestrators.  The embedding uses an idealized timeline: navigation
completes at time 0, the fixed delays are exact, the interaction rounds are
instantaneous, and the poll loop's iterations take exactly 250 ms.  The environment of
one call is a World: whether the launch and the navigation succeed, the cumulative log
of collector events delivered by each instant (in ms after navigation), whether
browser.close fails, and the outcome of the DOM-fallback page.evaluate call (an
exception, or the page's frame tree). -/

structure World where
  launchOk : Bool
  navOk : Bool
  events : Nat → List NetEvent
  closeFails : Bool
  dom : Except Unit PageDom

/-- The collector state visible at time t: the event log so far, folded from empty. -/
def netStateAt (w : World) (t : Nat) : NetState := applyEvents (w.events t)

/-- The manifest set visible at time t. -/
def m3u8At (w : World) (t : Nat) : List String := (netStateAt w t).m3u8

/-- The poll loop: while (Date.now() - start < 5000) { if (m3u8Urls.size > 0) break;
await delay(250); }.  f gives the manifest set at each absolute time; the poll starts
at 14000 ms; the result is the elapsed time at which the loop exits. -/
def pollFrom (f : Nat → List String) (e : Nat) : Nat :=
  if h : e < 5000 then
    if f (14000 + e) = [] then pollFrom f (e + 250) else e
  else e
termination_by 5000 - e
decreasing_by simp_wf; omega

/-- Failures that propagate out of a scrape call. -/
inductive ScrapeErr where
  | launchFailed
  | navTimeout
  | evalFailed
deriving DecidableEq

/-- Observable facts about one run: how many times tryInteractAllFrames was invoked,
and whether browser.close was attempted (it is skipped only when browser is null,
i.e. when the launch itself failed). -/
structure RunStats where
  interactions : Nat
  closeAttempted : Bool

/-- The outcome of the await browser?.close() call in the finally block. -/
def closeResult (w : World) : Except Unit Unit :=
  if w.closeFails then Except.error () else Except.ok ()

/-- finally { try { await browser?.close() } catch {} }: the inner catch turns any
close failure into normal completion, so the body's completion is preserved on both
outcomes of the close call. -/
def runFinally {α : Type} (body : Except ScrapeErr α) (cl : Except Unit Unit) :
    Except ScrapeErr α :=
  match cl with
  | Except.ok _ => body
  | Except.error _ => body

/-- The try-block of scrapeProvider after a successful launch: navigate (a timeout
propagates), wait 6000 ms and return early if the manifest set is non-empty, else
interact and wait 8000 more ms and return early if non-empty, else interact again and
poll, finally reading the set at the exit instant (Array.from(m3u8Urls)).  The second
component counts the tryInteractAllFrames invocations the path performed. -/
def scrapeBodySP (w : World) : Except ScrapeErr (List String) × Nat :=
  if w.navOk = false then (Except.error ScrapeErr.navTimeout, 0)
  else if m3u8At w 6000 ≠ [] then (Except.ok (m3u8At w 6000), 0)
  else if m3u8At w 14000 ≠ [] then (Except.ok (m3u8At w 14000), 1)
  else (Except.ok (m3u8At w (14000 + pollFrom (m3u8At w) 0)), 2)

/-- scrapeProvider: launch (a failure propagates with browser still null, so the
finally's browser?.close() is skipped), run the try-block, then the finally block. -/
def scrapeProviderModel (w : World) : Except ScrapeErr (List String) × RunStats :=
  if w.launchOk = false then (Except.error ScrapeErr.launchFailed, RunStats.mk 0 false)
  else (runFinally (scrapeBodySP w).1 (closeResult w), RunStats.mk (scrapeBodySP w).2 true)

/-- The instant at which the escalation of either entry point stops reading the
manifest set: after the passive wait if already non-empty, after the first interaction
round and 8000 ms wait if then non-empty, otherwise after the bounded poll. -/
def exitTimeOf (w : World) : Nat :=
  if m3u8At w 6000 ≠ [] then 6000
  else if m3u8At w 14000 ≠ [] then 14000
  else 14000 + pollFrom (m3u8At w) 0

/-- How many tryInteractAllFrames invocations the escalation performs. -/
def interactionsOf (w : World) : Nat :=
  if m3u8At w 6000 ≠ [] then 0
  else if m3u8At w 14000 ≠ [] then 1
  else 2

/-- The events delivered strictly after instant t1, up to instant t2. -/
def eventsAfter (w : World) (t1 t2 : Nat) : List NetEvent :=
  (w.events t2).drop (w.events t1).length

/-- domSubs.forEach((u) => subUrls.add(u)): merge the DOM-fallback URLs into the
subtitle set; the manifest set is untouched. -/
def mergeDom (st : NetState) (dom : List String) : NetState :=
  NetState.mk st.m3u8 (dom.foldl setAdd st.subs)

/-- The subtitle set read at the exit instant of scrapeProviderWithSubtitles: the
network-collected state at 6000 ms, the DOM-fallback URLs merged at that point, and
the network events delivered between 6000 ms and the exit applied on top. -/
def finalSubsWS (w : World) (dom : List String) : List String :=
  (applyEventsList (mergeDom (netStateAt w 6000) dom) (eventsAfter w 6000 (exitTimeOf w))).subs

structure SubResult where
  urls : List String
  subtitles : List Subtitle

/-- The try-block of scrapeProviderWithSubtitles after a successful launch: navigate
(a timeout propagates), wait 6000 ms, run the DOM-fallback page.evaluate — this call
is NOT wrapped in try/catch in the source, so its failure propagates — then merge its
URLs, run the two guarded interaction blocks, and build the result at the exit
instant.  page.evaluate executes in the page's main frame document (the driver
contract), so only pd.mainFrame is scanned.  The second component counts the
tryInteractAllFrames invocations. -/
def scrapeBodyWS (w : World) : Except ScrapeErr SubResult × Nat :=
  if w.navOk = false then (Except.error ScrapeErr.navTimeout, 0)
  else
    match w.dom with
    | Except.error _ => (Except.error ScrapeErr.evalFailed, 0)
    | Except.ok pd =>
        (Except.ok (SubResult.mk (m3u8At w (exitTimeOf w))
            ((finalSubsWS w (collectDoc pd.mainFrame)).map (fun u => Subtitle.mk u none none))),
          interactionsOf w)

/-- scrapeProviderWithSubtitles: launch, try-block, finally block. -/
def scrapeProviderWithSubtitlesModel (w : World) : Except ScrapeErr SubResult × RunStats :=
  if w.launchOk = false then (Except.error ScrapeErr.launchFailed, RunStats.mk 0 false)
  else (runFinally (scrapeBodyWS w).1 (closeResult w), RunStats.mk (scrapeBodyWS w).2 true)

/-- The same world with only the close-failure flag changed. -/
def setCloseFails (w : World) (b : Bool) : World :=
  World.mk w.launchOk w.navOk w.events b w.dom

/-- The same world with only the DOM-evaluation outcome changed. -/
def setDom (w : World) (d : Except Unit PageDom) : World :=
  World.mk w.launchOk w.navOk w.events w.closeFails d

/-! Helper lemmas: list extension (the append-only order), setAdd, the collector
handlers, the poll loop, and congruence of the orchestrator bodies. -/

lemma extends_refl {α : Type} (l : List α) : l <+: l := ⟨[], List.append_nil l⟩

lemma extends_trans {α : Type} {a b c : List α} (h1 : a <+: b) (h2 : b <+: c) : a <+: c := by
  obtain ⟨t1, ht1⟩ := h1
  obtain ⟨t2, ht2⟩ := h2
  exact ⟨t1 ++ t2, by rw [← List.append_assoc, ht1, ht2]⟩

lemma extends_length {α : Type} {a b : List α} (h : a <+: b) : a.length ≤ b.length := by
  obtain ⟨t, ht⟩ := h
  rw [← ht, List.length_append]
  omega

lemma extends_mem {α : Type} {a b : List α} {x : α} (h : a <+: b) (hx : x ∈ a) : x ∈ b := by
  obtain ⟨t, ht⟩ := h
  rw [← ht]
  exact List.mem_append.2 (Or.inl hx)

lemma setAdd_extends (s : List String) (u : String) : s <+: setAdd s u := by
  unfold setAdd
  split
  · exact extends_refl s
  · exact ⟨[u], rfl⟩

lemma mem_setAdd_self (s : List String) (u : String) : u ∈ setAdd s u := by
  unfold setAdd
  split
  · assumption
  · simp

lemma mem_setAdd_iff (s : List String) (u v : String) : v ∈ setAdd s u ↔ v ∈ s ∨ v = u := by
  unfold setAdd
  split
  · rename_i h
    constructor
    · exact Or.inl
    · rintro (hv | rfl)
      · exact hv
      · exact h
  · simp

lemma foldl_setAdd_extends (l : List String) : ∀ s : List String, s <+: l.foldl setAdd s := by
  induction l with
  | nil => intro s; exact extends_refl s
  | cons x xs ih => intro s; exact extends_trans (setAdd_extends s x) (ih (setAdd s x))

lemma mem_foldl_setAdd (l : List String) : ∀ (s : List String) (v : String),
    v ∈ l.foldl setAdd s ↔ v ∈ s ∨ v ∈ l := by
  induction l with
  | nil => intro s v; simp
  | cons x xs ih =>
    intro s v
    simp only [List.foldl_cons, ih, mem_setAdd_iff, List.mem_cons]
    tauto

lemma recordUrl_extends (st : NetState) (u : String) :
    st.m3u8 <+: (recordUrl st u).m3u8 ∧ st.subs <+: (recordUrl st u).subs := by
  unfold recordUrl
  constructor <;> dsimp <;> split
  · exact setAdd_extends _ _
  · exact extends_refl _
  · exact setAdd_extends _ _
  · exact extends_refl _

lemma recordUrl_m3u8_eq (st : NetState) (u : String) (h : isM3U8 u = false) :
    (recordUrl st u).m3u8 = st.m3u8 := by
  simp [recordUrl, h]

lemma mem_recordUrl_m3u8 (st : NetState) (u : String) (h : isM3U8 u = true) :
    u ∈ (recordUrl st u).m3u8 := by
  simp [recordUrl, h, mem_setAdd_self]

lemma mem_recordUrl_subs (st : NetState) (u : String) (h : isSubtitle u = true) :
    u ∈ (recordUrl st u).subs := by
  simp [recordUrl, h, mem_setAdd_self]

lemma mem_recordUrl_subs_iff (st : NetState) (u v : String) :
    v ∈ (recordUrl st u).subs ↔ v ∈ st.subs ∨ (isSubtitle u = true ∧ v = u) := by
  unfold recordUrl
  dsimp
  split
  · rename_i h
    rw [mem_setAdd_iff]
    simp [h]
  · rename_i h
    simp [h]

lemma applyEvent_extends (st : NetState) (ev : NetEvent) :
    st.m3u8 <+: (applyEvent st ev).m3u8 ∧ st.subs <+: (applyEvent st ev).subs := by
  cases ev with
  | request url ty => exact recordUrl_extends st url
  | response r q f =>
    dsimp [applyEvent]
    split
    · exact ⟨extends_refl _, extends_refl _⟩
    · exact ⟨extends_trans (recordUrl_extends st r).1 (recordUrl_extends (recordUrl st r) q).1,
        extends_trans (recordUrl_extends st r).2 (recordUrl_extends (recordUrl st r) q).2⟩

lemma applyEventsList_extends (l : List NetEvent) : ∀ st : NetState,
    st.m3u8 <+: (applyEventsList st l).m3u8 ∧ st.subs <+: (applyEventsList st l).subs := by
  induction l with
  | nil => intro st; exact ⟨extends_refl _, extends_refl _⟩
  | cons ev rest ih =>
    intro st
    have h1 := applyEvent_extends st ev
    have h2 := ih (applyEvent st ev)
    exact ⟨extends_trans h1.1 h2.1, extends_trans h1.2 h2.2⟩

lemma applyEvents_append (l1 l2 : List NetEvent) :
    applyEvents (l1 ++ l2) = applyEventsList (applyEvents l1) l2 := by
  simp [applyEvents, applyEventsList, List.foldl_append]

/-- Whether a collector event mentions no manifest-classified URL at all. -/
def eventM3U8Free : NetEvent → Bool
  | NetEvent.request url _ => !(isM3U8 url)
  | NetEvent.response r q _ => !(isM3U8 r) && !(isM3U8 q)

lemma applyEvent_m3u8_free (st : NetState) (ev : NetEvent) (h : eventM3U8Free ev = true) :
    (applyEvent st ev).m3u8 = st.m3u8 := by
  cases ev with
  | request url ty =>
    simp only [eventM3U8Free, Bool.not_eq_true'] at h
    exact recordUrl_m3u8_eq st url h
  | response r q f =>
    simp only [eventM3U8Free, Bool.and_eq_true, Bool.not_eq_true'] at h
    dsimp [applyEvent]
    split
    · rfl
    · rw [recordUrl_m3u8_eq _ _ h.2, recordUrl_m3u8_eq _ _ h.1]

lemma applyEventsList_m3u8_free (l : List NetEvent) : ∀ st : NetState,
    (∀ ev ∈ l, eventM3U8Free ev = true) → (applyEventsList st l).m3u8 = st.m3u8 := by
  induction l with
  | nil => intro st _; rfl
  | cons ev rest ih =>
    intro st h
    have h1 : eventM3U8Free ev = true := h ev (List.mem_cons_self ev rest)
    have h2 : ∀ e ∈ rest, eventM3U8Free e = true := fun e he => h e (List.mem_cons_of_mem ev he)
    rw [show applyEventsList st (ev :: rest) = applyEventsList (applyEvent st ev) rest from rfl,
      ih _ h2, applyEvent_m3u8_free st ev h1]

/-- Whether a collector event inserts the string v into the subtitle set. -/
def evAddsSub (v : String) : NetEvent → Prop
  | NetEvent.request url _ => isSubtitle url = true ∧ v = url
  | NetEvent.response r q f =>
      f = false ∧ ((isSubtitle r = true ∧ v = r) ∨ (isSubtitle q = true ∧ v = q))

lemma mem_applyEvent_subs_iff (st : NetState) (ev : NetEvent) (v : String) :
    v ∈ (applyEvent st ev).subs ↔ v ∈ st.subs ∨ evAddsSub v ev := by
  cases ev with
  | request url ty => exact mem_recordUrl_subs_iff st url v
  | response r q f =>
    dsimp [applyEvent, evAddsSub]
    split
    · rename_i hf
      simp [hf]
    · rename_i hf
      have hf' : f = false := by revert hf; cases f <;> simp
      rw [mem_recordUrl_subs_iff, mem_recordUrl_subs_iff]
      simp only [hf']
      tauto

lemma mem_applyEventsList_subs_iff (l : List NetEvent) : ∀ (st : NetState) (v : String),
    v ∈ (applyEventsList st l).subs ↔ v ∈ st.subs ∨ ∃ ev ∈ l, evAddsSub v ev := by
  induction l with
  | nil => intro st v; simp [applyEventsList]
  | cons ev rest ih =>
    intro st v
    rw [show applyEventsList st (ev :: rest) = applyEventsList (applyEvent st ev) rest from rfl,
      ih, mem_applyEvent_subs_iff]
    simp only [List.mem_cons, exists_eq_or_imp]
    tauto

lemma pollFrom_all_empty (f : Nat → List String) (hf : ∀ t, f t = []) :
    ∀ n e, e + 250 * n = 5000 → pollFrom f e = 5000 := by
  intro n
  induction n with
  | zero =>
    intro e he
    have he' : e = 5000 := by omega
    subst he'
    unfold pollFrom
    simp
  | succ k ih =>
    intro e he
    have h1 : e < 5000 := by omega
    unfold pollFrom
    rw [dif_pos h1, if_pos (hf (14000 + e))]
    exact ih (e + 250) (by omega)

lemma runFinally_eq {α : Type} (body : Except ScrapeErr α) (cl : Except Unit Unit) :
    runFinally body cl = body := by
  cases cl <;> rfl

lemma m3u8At_congr (w w' : World) (he : w.events = w'.events) : m3u8At w = m3u8At w' := by
  funext t
  simp [m3u8At, netStateAt, he]

lemma netStateAt_congr (w w' : World) (he : w.events = w'.events) :
    netStateAt w = netStateAt w' := by
  funext t
  simp [netStateAt, he]

lemma scrapeBodySP_congr (w w' : World) (hn : w.navOk = w'.navOk) (he : w.events = w'.events) :
    scrapeBodySP w = scrapeBodySP w' := by
  unfold scrapeBodySP
  rw [hn, m3u8At_congr w w' he]

lemma scrapeBodyWS_congr (w w' : World) (hn : w.navOk = w'.navOk) (he : w.events = w'.events)
    (hd : w.dom = w'.dom) : scrapeBodyWS w = scrapeBodyWS w' := by
  unfold scrapeBodyWS finalSubsWS exitTimeOf interactionsOf eventsAfter
  rw [hn, hd, m3u8At_congr w w' he, netStateAt_congr w w' he, he]

lemma setCloseFails_launchOk (w : World) (b : Bool) :
    (setCloseFails w b).launchOk = w.launchOk := rfl

lemma setCloseFails_navOk (w : World) (b : Bool) : (setCloseFails w b).navOk = w.navOk := rfl

lemma setCloseFails_events (w : World) (b : Bool) : (setCloseFails w b).events = w.events := rfl

lemma setCloseFails_dom (w : World) (b : Bool) : (setCloseFails w b).dom = w.dom := rfl

lemma setDom_launchOk (w : World) (d : Except Unit PageDom) :
    (setDom w d).launchOk = w.launchOk := rfl

lemma setDom_navOk (w : World) (d : Except Unit PageDom) : (setDom w d).navOk = w.navOk := rfl

lemma setDom_events (w : World) (d : Except Unit PageDom) : (setDom w d).events = w.events := rfl

lemma setDom_dom (w : World) (d : Except Unit PageDom) : (setDom w d).dom = d := rfl

lemma exitTimeOf_ge (w : World) : 6000 ≤ exitTimeOf w := by
  unfold exitTimeOf
  split
  · omega
  · split <;> omega

lemma netStateAt_decomp (w : World)
    (hmono : ∀ s t : Nat, s ≤ t → w.events s <+: w.events t)
    (t1 t2 : Nat) (h : t1 ≤ t2) :
    netStateAt w t2 = applyEventsList (netStateAt w t1) (eventsAfter w t1 t2) := by
  obtain ⟨tail, htail⟩ := hmono t1 t2 h
  have hdrop : eventsAfter w t1 t2 = tail := by
    unfold eventsAfter
    rw [← htail, List.drop_left]
  rw [hdrop]
  unfold netStateAt
  rw [← htail, applyEvents_append]

lemma spModel_fst (w : World) (hL : w.launchOk = true) :
    (scrapeProviderModel w).1 = (scrapeBodySP w).1 := by
  unfold scrapeProviderModel
  rw [hL]
  simp [runFinally_eq]

lemma spModel_stats (w : World) (hL : w.launchOk = true) :
    (scrapeProviderModel w).2 = RunStats.mk (scrapeBodySP w).2 true := by
  unfold scrapeProviderModel
  rw [hL]
  simp

lemma wsModel_fst (w : World) (hL : w.launchOk = true) :
    (scrapeProviderWithSubtitlesModel w).1 = (scrapeBodyWS w).1 := by
  unfold scrapeProviderWithSubtitlesModel
  rw [hL]
  simp [runFinally_eq]

lemma wsModel_stats (w : World) (hL : w.launchOk = true) :
    (scrapeProviderWithSubtitlesModel w).2 = RunStats.mk (scrapeBodyWS w).2 true := by
  unfold scrapeProviderWithSubtitlesModel
  rw [hL]
  simp

lemma scrapeBodyWS_main_only (w : World) (mf : FrameDoc) (cf cf' : List FrameDoc) :
    scrapeBodyWS (setDom w (Except.ok (PageDom.mk mf cf)))
  = scrapeBodyWS (setDom w (Except.ok (PageDom.mk mf cf'))) := by
  unfold scrapeBodyWS finalSubsWS exitTimeOf interactionsOf eventsAfter
  simp only [setDom_navOk, setDom_dom, setDom_events,
    m3u8At_congr (setDom w (Except.ok (PageDom.mk mf cf))) w rfl,
    m3u8At_congr (setDom w (Except.ok (PageDom.mk mf cf'))) w rfl,
    netStateAt_congr (setDom w (Except.ok (PageDom.mk mf cf))) w rfl,
    netStateAt_congr (setDom w (Except.ok (PageDom.mk mf cf'))) w rfl]

/-! Concrete environments used by the witnesses and counterexamples. -/

def emptyDoc : FrameDoc := FrameDoc.mk [] []

def emptyPage : PageDom := PageDom.mk emptyDoc []

/-- A page that issues one manifest-classified request right away and nothing else. -/
def wEarly : World :=
  World.mk true true (fun _ => [NetEvent.request "http://x/a.m3u8" "xhr"]) false
    (Except.ok emptyPage)

/-- A page that never issues any network event. -/
def wEmpty : World := World.mk true true (fun _ => []) false (Except.ok emptyPage)

/-- A quiet page on which the DOM-fallback evaluation throws. -/
def wDomFail : World := World.mk true true (fun _ => []) false (Except.error ())

/-- A document holding a subtitle track element, placed in a nested iframe only. -/
def iframeDoc : FrameDoc := FrameDoc.mk [TrackEl.mk "subtitles" true "http://x/cap.vtt"] []

/-- A quiet page whose only subtitle track lives in a nested iframe. -/
def wIframe : World :=
  World.mk true true (fun _ => []) false (Except.ok (PageDom.mk emptyDoc [iframeDoc]))

/-! The claim theorems. -/

/-- Claim C1: for every intercepted outgoing request, a URL classifying as manifest
(resp. subtitle) is recorded into the corresponding set before the block/allow
decision, so a heavy resource type aborts the request without ever preventing the
recording, and a non-heavy type continues the request. -/
theorem request_records_then_decides (st : NetState) (url ty : String) :
    (isM3U8 url = true → url ∈ (onRequest st url ty).1.m3u8)
  ∧ (isSubtitle url = true → url ∈ (onRequest st url ty).1.subs)
  ∧ ((onRequest st url ty).2 = ReqDecision.abortReq ↔ isHeavyResource ty = true)
  ∧ ((onRequest st url ty).2 = ReqDecision.continueReq ↔ isHeavyResource ty = false) := by
  refine ⟨fun h => mem_recordUrl_m3u8 st url h, fun h => mem_recordUrl_subs st url h, ?_, ?_⟩
  · unfold onRequest
    dsimp
    split
    · rename_i h
      simp [h]
    · rename_i h
      simp [h]
  · unfold onRequest
    dsimp
    split
    · rename_i h
      simp [h]
    · rename_i h
      simp_all

theorem request_records_then_decides_witness :
    "http://x/a.m3u8" ∈ (onRequest (NetState.mk [] []) "http://x/a.m3u8" "media").1.m3u8
  ∧ (onRequest (NetState.mk [] []) "http://x/a.m3u8" "media").2 = ReqDecision.abortReq :=
  ⟨(request_records_then_decides (NetState.mk [] []) "http://x/a.m3u8" "media").1 (by decide),
    ((request_records_then_decides (NetState.mk [] []) "http://x/a.m3u8" "media").2.2.1).mpr
      (by decide)⟩

/-- Claim C2, counterexample: isM3U8 is an unanchored whole-string regex test, so a
URL whose query string ends in .m3u8 is accepted although its path component (the
text before the first question mark) does not end in .m3u8. -/
theorem isM3U8_path_iff_cex :
    isM3U8 "http://x/a?f=.m3u8" = true
  ∧ specManifestPathEnds "http://x/a?f=.m3u8" = false :=
  ⟨by decide, by decide⟩

/-- Claim C2, amended: isM3U8(u) is true iff u contains, at some position, ".m3u8"
case-insensitively followed immediately by a question mark or the end of the string;
when the path component ignoring any query string ends with ".m3u8" this holds, but
not conversely.  The claim's two examples hold as stated. -/
theorem isM3U8_occurrence_characterization (u : String) :
    (isM3U8 u = true ↔ ∃ n, sliceHere ['.', 'm', '3', 'u', '8'] (u.data.drop n) = true)
  ∧ (specManifestPathEnds u = true → isM3U8 u = true)
  ∧ isM3U8 "http://x/a.M3U8?t=1" = true
  ∧ isM3U8 "http://x/a.m3u8x" = false :=
  ⟨scanFor_iff m3u8Here u.data, specManifest_implies_isM3U8 u, by decide, by decide⟩

theorem isM3U8_occurrence_characterization_witness :
    specManifestPathEnds "http://x/b.m3u8?x=1" = true
  ∧ isM3U8 "http://x/b.m3u8?x=1" = true :=
  ⟨by decide, (isM3U8_occurrence_characterization "http://x/b.m3u8?x=1").2.1 (by decide)⟩

/-- Claim C3: if the manifest set is non-empty after the 6000 ms passive wait,
scrapeProvider returns exactly the accumulated manifest URLs and never invokes
tryInteractAllFrames during that call. -/
theorem passive_exit_no_interaction (w : World) (hL : w.launchOk = true)
    (hN : w.navOk = true) (h6 : m3u8At w 6000 ≠ []) :
    (scrapeProviderModel w).1 = Except.ok (m3u8At w 6000)
  ∧ (scrapeProviderModel w).2.interactions = 0 := by
  rw [spModel_fst w hL, spModel_stats w hL]
  unfold scrapeBodySP
  rw [hN]
  simp [h6]

theorem passive_exit_no_interaction_witness :
    m3u8At wEarly 6000 ≠ []
  ∧ (scrapeProviderModel wEarly).1 = Except.ok (m3u8At wEarly 6000)
  ∧ (scrapeProviderModel wEarly).2.interactions = 0 :=
  ⟨by decide, (passive_exit_no_interaction wEarly rfl rfl (by decide)).1,
    (passive_exit_no_interaction wEarly rfl rfl (by decide)).2⟩

/-- Claim C4, counterexample: when the DOM-fallback evaluation of
scrapeProviderWithSubtitles throws, the call does not proceed and does not return a
result: it terminates with the propagated failure, with no interaction phase run
(the page.evaluate call is not wrapped in try/catch in the source). -/
theorem domFallback_failure_cex :
    (scrapeProviderWithSubtitlesModel wDomFail).1 = Except.error ScrapeErr.evalFailed
  ∧ (scrapeProviderWithSubtitlesModel wDomFail).2.interactions = 0 :=
  ⟨rfl, rfl⟩

/-- Claim C4, amended: a failure of the DOM-fallback subtitle evaluation is NOT
swallowed: it propagates and terminates scrapeProviderWithSubtitles with that
failure, skipping the interaction and poll phases; the browser teardown still runs. -/
theorem domFallback_failure_propagates (w : World) (hL : w.launchOk = true)
    (hN : w.navOk = true) (hd : w.dom = Except.error ()) :
    (scrapeProviderWithSubtitlesModel w).1 = Except.error ScrapeErr.evalFailed
  ∧ (scrapeProviderWithSubtitlesModel w).2.interactions = 0
  ∧ (scrapeProviderWithSubtitlesModel w).2.closeAttempted = true := by
  rw [wsModel_fst w hL, wsModel_stats w hL]
  unfold scrapeBodyWS
  rw [hN, hd]
  simp

theorem domFallback_failure_propagates_witness :
    (scrapeProviderWithSubtitlesModel wDomFail).1 = Except.error ScrapeErr.evalFailed
  ∧ (scrapeProviderWithSubtitlesModel wDomFail).2.interactions = 0
  ∧ (scrapeProviderWithSubtitlesModel wDomFail).2.closeAttempted = true :=
  domFallback_failure_propagates wDomFail rfl rfl rfl

/-- Claim C5: on a page that never issues a manifest-classified request,
scrapeProvider runs the full bounded escalation (both interaction rounds, the poll to
its 5000 ms deadline) and returns the empty sequence as a successful outcome. -/
theorem no_manifest_full_escalation_empty (w : World) (hL : w.launchOk = true)
    (hN : w.navOk = true)
    (hfree : ∀ t : Nat, ∀ ev ∈ w.events t, eventM3U8Free ev = true) :
    (scrapeProviderModel w).1 = Except.ok []
  ∧ (scrapeProviderModel w).2.interactions = 2
  ∧ pollFrom (m3u8At w) 0 = 5000 := by
  have hempty : ∀ t, m3u8At w t = [] := fun t =>
    applyEventsList_m3u8_free (w.events t) (NetState.mk [] []) (hfree t)
  have hpoll : pollFrom (m3u8At w) 0 = 5000 :=
    pollFrom_all_empty (m3u8At w) hempty 20 0 (by norm_num)
  rw [spModel_fst w hL, spModel_stats w hL]
  unfold scrapeBodySP
  rw [hN]
  simp [hempty, hpoll]

theorem no_manifest_full_escalation_empty_witness :
    (scrapeProviderModel wEmpty).1 = Except.ok []
  ∧ (scrapeProviderModel wEmpty).2.interactions = 2
  ∧ pollFrom (m3u8At wEmpty) 0 = 5000 :=
  no_manifest_full_escalation_empty wEmpty rfl rfl
    (by intro t ev he; simp [wEmpty] at he)

/-- Claim C6: on every exit path reached after the browser was launched — early
return, full escalation, navigation timeout, or the propagated DOM-evaluation failure
— browser.close is attempted, and a failure of the close call itself never changes
the call's outcome (it is swallowed by the catch inside the finally block). -/
theorem teardown_every_exit_path (w : World) (hL : w.launchOk = true) :
    (scrapeProviderModel w).2.closeAttempted = true
  ∧ (scrapeProviderWithSubtitlesModel w).2.closeAttempted = true
  ∧ (∀ b, (scrapeProviderModel (setCloseFails w b)).1 = (scrapeProviderModel w).1)
  ∧ (∀ b, (scrapeProviderWithSubtitlesModel (setCloseFails w b)).1
        = (scrapeProviderWithSubtitlesModel w).1) := by
  have hL' : ∀ b, (setCloseFails w b).launchOk = true := fun b => hL
  refine ⟨?_, ?_, ?_, ?_⟩
  · rw [spModel_stats w hL]
  · rw [wsModel_stats w hL]
  · intro b
    rw [spModel_fst _ (hL' b), spModel_fst w hL, scrapeBodySP_congr (setCloseFails w b) w rfl rfl]
  · intro b
    rw [wsModel_fst _ (hL' b), wsModel_fst w hL,
      scrapeBodyWS_congr (setCloseFails w b) w rfl rfl rfl]

theorem teardown_every_exit_path_witness :
    (scrapeProviderModel wEmpty).2.closeAttempted = true
  ∧ (scrapeProviderModel (setCloseFails wEmpty true)).1 = (scrapeProviderModel wEmpty).1 :=
  ⟨(teardown_every_exit_path wEmpty rfl).1, (teardown_every_exit_path wEmpty rfl).2.2.1 true⟩

/-- Claim C7: the manifest and subtitle sets are append-only throughout one call:
each collector event and the DOM-fallback merge only extend the lists (the old list
is a prefix of the new one), and over any two instants of a run with a monotone event
log the earlier state is a prefix of the later one, so sizes never decrease and no
inserted element is ever removed or rewritten. -/
theorem sets_append_only (w : World)
    (hmono : ∀ s t : Nat, s ≤ t → w.events s <+: w.events t) :
    (∀ (st : NetState) (ev : NetEvent),
        st.m3u8 <+: (applyEvent st ev).m3u8 ∧ st.subs <+: (applyEvent st ev).subs)
  ∧ (∀ (st : NetState) (dom : List String),
        st.m3u8 <+: (mergeDom st dom).m3u8 ∧ st.subs <+: (mergeDom st dom).subs)
  ∧ (∀ s t : Nat, s ≤ t →
        (netStateAt w s).m3u8 <+: (netStateAt w t).m3u8
      ∧ (netStateAt w s).subs <+: (netStateAt w t).subs
      ∧ (netStateAt w s).m3u8.length ≤ (netStateAt w t).m3u8.length
      ∧ (netStateAt w s).subs.length ≤ (netStateAt w t).subs.length) := by
  refine ⟨applyEvent_extends, ?_, ?_⟩
  · intro st dom
    exact ⟨extends_refl _, foldl_setAdd_extends dom st.subs⟩
  · intro s t hst
    have hext := applyEventsList_extends (eventsAfter w s t) (netStateAt w s)
    rw [netStateAt_decomp w hmono s t hst]
    exact ⟨hext.1, hext.2, extends_length hext.1, extends_length hext.2⟩

theorem sets_append_only_witness :
    (netStateAt wEarly 0).m3u8 <+: (netStateAt wEarly 6000).m3u8 :=
  ((sets_append_only wEarly (by intro s t h; exact extends_refl _)).2.2 0 6000
    (by omega)).1

/-- Claim C8, counterexample: isSubtitle is an unanchored whole-string regex test, so
a URL whose query string ends in .srt is accepted although its path component (the
text before the first question mark) ends in neither .vtt nor .srt. -/
theorem isSubtitle_path_iff_cex :
    isSubtitle "http://x/s?f=.srt" = true
  ∧ specSubtitlePathEnds "http://x/s?f=.srt" = false :=
  ⟨by decide, by decide⟩

/-- Claim C8, amended: isSubtitle(u) is true iff u contains, at some position, ".vtt"
or ".srt" case-insensitively followed immediately by a question mark or the end of
the string; when the path component ignoring any query string ends with one of them
this holds, but not conversely.  The claim's two examples hold as stated. -/
theorem isSubtitle_occurrence_characterization (u : String) :
    (isSubtitle u = true ↔ ∃ n, subtitleHere (u.data.drop n) = true)
  ∧ (specSubtitlePathEnds u = true → isSubtitle u = true)
  ∧ isSubtitle "http://x/s.srt" = true
  ∧ isSubtitle "http://x/s.srts" = false :=
  ⟨scanFor_iff subtitleHere u.data, specSubtitle_implies_isSubtitle u, by decide, by decide⟩

theorem isSubtitle_occurrence_characterization_witness :
    specSubtitlePathEnds "http://x/c.VTT" = true ∧ isSubtitle "http://x/c.VTT" = true :=
  ⟨by decide, (isSubtitle_occurrence_characterization "http://x/c.VTT").2.1 (by decide)⟩

/-- Claim C9: the two classifiers are not mutually exclusive: on
"http://x/a.srt?f=.m3u8" both isM3U8 and isSubtitle are true, and the request handler
records such a URL into both the manifest set and the subtitle set. -/
theorem classifiers_overlap_recorded_both :
    isM3U8 "http://x/a.srt?f=.m3u8" = true
  ∧ isSubtitle "http://x/a.srt?f=.m3u8" = true
  ∧ ∀ (st : NetState) (ty : String),
      "http://x/a.srt?f=.m3u8" ∈ (onRequest st "http://x/a.srt?f=.m3u8" ty).1.m3u8
    ∧ "http://x/a.srt?f=.m3u8" ∈ (onRequest st "http://x/a.srt?f=.m3u8" ty).1.subs :=
  ⟨by decide, by decide, fun st ty =>
    ⟨mem_recordUrl_m3u8 st _ (by decide), mem_recordUrl_subs st _ (by decide)⟩⟩

/-- Claim C10: the DOM subtitle fallback evaluates in the main frame's document only:
the result of scrapeProviderWithSubtitles does not depend on the child frames'
documents, and a subtitle URL not collected from the main frame's document can appear
in the returned subtitles only if it was observed on the network by the exit instant. -/
theorem domFallback_main_frame_only (w : World) (pd : PageDom) (u : String)
    (hmono : ∀ s t : Nat, s ≤ t → w.events s <+: w.events t)
    (hL : w.launchOk = true) (hN : w.navOk = true)
    (hd : w.dom = Except.ok pd)
    (hu : u ∉ collectDoc pd.mainFrame) :
    (∀ cf cf' : List FrameDoc,
        (scrapeProviderWithSubtitlesModel (setDom w (Except.ok (PageDom.mk pd.mainFrame cf)))).1
      = (scrapeProviderWithSubtitlesModel (setDom w (Except.ok (PageDom.mk pd.mainFrame cf')))).1)
  ∧ (∀ res : SubResult, (scrapeProviderWithSubtitlesModel w).1 = Except.ok res →
        Subtitle.mk u none none ∈ res.subtitles →
        u ∈ (netStateAt w (exitTimeOf w)).subs) := by
  constructor
  · intro cf cf'
    rw [wsModel_fst (setDom w (Except.ok (PageDom.mk pd.mainFrame cf))) hL,
      wsModel_fst (setDom w (Except.ok (PageDom.mk pd.mainFrame cf'))) hL,
      scrapeBodyWS_main_only w pd.mainFrame cf cf']
  · intro res hres hmem
    rw [wsModel_fst w hL] at hres
    unfold scrapeBodyWS at hres
    rw [hN, hd] at hres
    simp only [Bool.true_eq_false, if_false, Except.ok.injEq, reduceIte] at hres
    subst hres
    simp only [List.mem_map] at hmem
    obtain ⟨v, hv, heq⟩ := hmem
    injection heq with h1 h2 h3
    subst h1
    unfold finalSubsWS at hv
    rw [mem_applyEventsList_subs_iff] at hv
    rw [netStateAt_decomp w hmono 6000 (exitTimeOf w) (exitTimeOf_ge w),
      mem_applyEventsList_subs_iff]
    rcases hv with hv | hv
    · unfold mergeDom at hv
      dsimp at hv
      rw [mem_foldl_setAdd] at hv
      rcases hv with hv | hv
      · exact Or.inl hv
      · exact absurd hv hu
    · exact Or.inr hv

theorem domFallback_main_frame_only_witness :
    (scrapeProviderWithSubtitlesModel (setDom wIframe
        (Except.ok (PageDom.mk emptyDoc [iframeDoc])))).1
  = (scrapeProviderWithSubtitlesModel (setDom wIframe (Except.ok (PageDom.mk emptyDoc [])))).1 :=
  (domFallback_main_frame_only wIframe (PageDom.mk emptyDoc [iframeDoc]) "http://x/cap.vtt"
    (by intro s t h; exact extends_refl _) rfl rfl rfl (by decide)).1 [iframeDoc] []
